import Mathlib

/-!
A verification development for the L4DK life simulation
(`the_life_simulation_by_L4DK_v6_21062024.py`).  The simulation state and
its per-entity operations are embedded shallowly: Python floats become ℚ,
lists become `List`, and each method of the `Atom` class becomes a pure
function from the old state to the new state.  Wherever the Python code
computes a Euclidean distance with `math.hypot` (a square root, which is
not available inside ℚ), the embedding either works with the squared
distance — exact whenever the source only consumes the distance through
`1/d²` or through comparisons against a nonnegative bound — or takes the
distance as an explicit parameter constrained by `0 ≤ d` and
`d² = dx² + dy²`.  Each such spot is documented on the definition.
-/

namespace LifeSim

/-- `WINDOW_SIZE = 1200`, the world bound used by `check_bounds`. -/
def WINDOW_SIZE : ℚ := 1200

/-- `ATOM_SIZE = 5.0`. -/
def ATOM_SIZE : ℚ := 5

/-- `TRAIL_LENGTH = 10.0`; the trail-capacity comparison `len > 10.0` on an
integer length is equivalent to `len > 10`. -/
def TRAIL_LENGTH : ℕ := 10

/-- `MAX_VELOCITY = 5.0`. -/
def MAX_VELOCITY : ℚ := 5

/-- `DAMPING_FACTOR = 0.995`. -/
def DAMPING_FACTOR : ℚ := 995 / 1000

/-- `COLLISION_DAMPING = 0.98`. -/
def COLLISION_DAMPING : ℚ := 98 / 100

/-- `FORCE_SCALE = 1.0`. -/
def FORCE_SCALE : ℚ := 1

/-- `GRAVITY = 0.01`. -/
def GRAVITY : ℚ := 1 / 100

/-- `COULOMB = 0.01`. -/
def COULOMB : ℚ := 1 / 100

/-- `FORCE_THRESHOLD = 100.0`. -/
def FORCE_THRESHOLD : ℚ := 100

/-- `REPRODUCTION_COOLDOWN = 60.0`. -/
def REPRODUCTION_COOLDOWN : ℚ := 60

/-- `FOOD_SIZE = 3.0`. -/
def FOOD_SIZE : ℚ := 3

/-- The state of one atom, mirroring the instance variables set by
`Atom.__init__` (source lines 163–180). -/
structure Atom where
  x : ℚ
  y : ℚ
  vx : ℚ
  vy : ℚ
  mass : ℚ
  charge : ℚ
  size : ℚ
  color : ℕ × ℕ × ℕ
  species : String
  energy : ℚ
  hunger : ℚ
  health : ℚ
  age : ℕ
  trail : List (ℚ × ℚ)
  fx : ℚ
  fy : ℚ
  in_battle : Bool
  reproduction_cooldown : ℚ
deriving Repr, DecidableEq

/-- `Atom.__init__` (lines 112–180): stores the nine arguments and sets the
defaults `energy = 100`, `hunger = 100`, `health = 100`, `age = 0`,
`trail = []`, `fx = fy = 0`, `in_battle = False`,
`reproduction_cooldown = 0`.  The Python constructor performs no
validation of any argument. -/
def Atom.init (x y vx vy mass charge size : ℚ) (color : ℕ × ℕ × ℕ)
    (species : String) : Atom :=
  { x := x, y := y, vx := vx, vy := vy, mass := mass, charge := charge,
    size := size, color := color, species := species,
    energy := 100, hunger := 100, health := 100, age := 0, trail := [],
    fx := 0, fy := 0, in_battle := false, reproduction_cooldown := 0 }

/-- Squared Euclidean distance; the source computes
`math.hypot (x1-x2) (y1-y2)`, and every use below consumes that distance
only through its square or through a comparison that the square decides. -/
def dist2 (x1 y1 x2 y2 : ℚ) : ℚ :=
  (x1 - x2) ^ 2 + (y1 - y2) ^ 2

/-- `Atom.check_bounds` (lines 240–262): if a position component is
strictly outside `[0, WINDOW_SIZE]` the corresponding velocity component is
multiplied by `-1`; afterwards both position components are clamped into
`[0, WINDOW_SIZE]`.  Both inversion tests read the original position. -/
def Atom.check_bounds (a : Atom) : Atom :=
  { a with
    vx := if a.x < 0 ∨ WINDOW_SIZE < a.x then -a.vx else a.vx,
    vy := if a.y < 0 ∨ WINDOW_SIZE < a.y then -a.vy else a.vy,
    x := max 0 (min a.x WINDOW_SIZE),
    y := max 0 (min a.y WINDOW_SIZE) }

/-- `Atom.check_collision` (lines 344–358): the source returns
`hypot dx dy < self.size + other.size`.  For a sum of sizes `s`, the real
inequality `√(dx²+dy²) < s` holds iff `0 < s` and `dx²+dy² < s²`, which is
how it is decided here without a square root. -/
def Atom.check_collision (a b : Atom) : Bool :=
  decide (0 < a.size + b.size ∧
    dist2 a.x a.y b.x b.y < (a.size + b.size) ^ 2)

/-- `Atom.apply_force` (lines 302–323): accumulates the force and
immediately updates the velocity by `force / mass`. -/
def Atom.apply_force (a : Atom) (fx fy : ℚ) : Atom :=
  { a with
    fx := a.fx + fx, fy := a.fy + fy,
    vx := a.vx + fx / a.mass, vy := a.vy + fy / a.mass }

/-- `Atom.reset_force` (lines 327–340). -/
def Atom.reset_force (a : Atom) : Atom :=
  { a with fx := 0, fy := 0 }

/-- `Atom.update_position` (lines 266–298), with the global
`SIMULATION_SPEED` passed as the parameter `speed`: integrate position,
damp the velocity, run `check_bounds`, clamp each velocity component into
`[-MAX_VELOCITY, MAX_VELOCITY]`, recompute `energy` as kinetic energy from
the clamped velocity, append the current position to the trail, and pop
the oldest trail entry once the length exceeds `TRAIL_LENGTH`. -/
def Atom.update_position (a : Atom) (speed : ℚ) : Atom :=
  let a1 := { a with x := a.x + a.vx * speed, y := a.y + a.vy * speed }
  let a2 := { a1 with vx := a1.vx * DAMPING_FACTOR, vy := a1.vy * DAMPING_FACTOR }
  let a3 := a2.check_bounds
  let a4 := { a3 with
    vx := max (-MAX_VELOCITY) (min a3.vx MAX_VELOCITY),
    vy := max (-MAX_VELOCITY) (min a3.vy MAX_VELOCITY) }
  let a5 := { a4 with energy := 1 / 2 * a4.mass * (a4.vx ^ 2 + a4.vy ^ 2) }
  let newTrail := a5.trail ++ [(a5.x, a5.y)]
  { a5 with trail := if TRAIL_LENGTH < newTrail.length then newTrail.drop 1 else newTrail }

/-- The scan predicate of `Atom.eat` (line 231): the scanned atom is
food-tagged and currently collides with the caller. -/
def eatMatch (self atom : Atom) : Bool :=
  atom.species == "food" && self.check_collision atom

/-- `Atom.eat` (lines 212–236): scan the population in order for the first
food-tagged atom colliding with the caller; on a match raise the caller's
hunger and energy to `min 100 (· + 20)`, remove that atom from the list,
and stop.  Returns the updated caller and the updated population. -/
def Atom.eat (self : Atom) : List Atom → Atom × List Atom
  | [] => (self, [])
  | atom :: rest =>
    if eatMatch self atom then
      ({ self with
          hunger := min 100 (self.hunger + 20),
          energy := min 100 (self.energy + 20) }, rest)
    else
      let r := self.eat rest
      (r.1, atom :: r.2)

/-- `Atom.resolve_collision` (lines 362–413).  The source computes
`distance = hypot nx ny`, rescales the normal `(nx, ny)` by `1/distance`,
projects the relative velocity `(dvx, dvy)` onto the unit normal to get
`vn`, returns when `distance == 0` or `vn > 0`, and otherwise applies the
impulse `2·vn/(m1+m2)` along the unit normal, each side scaled by the
other atom's mass and by `COLLISION_DAMPING`.  Every velocity update term
is `impulse · m · (n/distance) · damping = 2·(dv⬝n)·m·n·damping /
((m1+m2)·distance²)`, so only the squared distance `d2 = nx²+ny²` enters;
the guards `distance == 0` and `vn > 0` are equivalent to `d2 = 0` and
`dv⬝n > 0`.  `vnd` below is `vn · distance = dvx·nx + dvy·ny`. -/
def Atom.resolve_collision (a b : Atom) : Atom × Atom :=
  let nx := b.x - a.x
  let ny := b.y - a.y
  let d2 := nx ^ 2 + ny ^ 2
  if d2 = 0 then (a, b)
  else
    let dvx := a.vx - b.vx
    let dvy := a.vy - b.vy
    let vnd := dvx * nx + dvy * ny
    if 0 < vnd then (a, b)
    else
      let k := 2 * vnd / ((a.mass + b.mass) * d2)
      ({ a with
          vx := a.vx - k * b.mass * nx * COLLISION_DAMPING,
          vy := a.vy - k * b.mass * ny * COLLISION_DAMPING },
       { b with
          vx := b.vx + k * a.mass * nx * COLLISION_DAMPING,
          vy := b.vy + k * a.mass * ny * COLLISION_DAMPING })

/-- One iteration of the pairwise loop body of `apply_gravity_and_forces`
(lines 862–888) for the pair `(a, b)`.  `d` stands for
`math.hypot (b.x - a.x) (b.y - a.y)`; since the square root is not
available on ℚ it is taken as a parameter, constrained in the theorems by
`0 ≤ d` and `d² = (b.x-a.x)² + (b.y-a.y)²`.  The body: skip when `d == 0`
or `d > FORCE_THRESHOLD`; otherwise `Fg = GRAVITY·mₐ·m_b/d²`,
`Fe = COULOMB·qₐ·q_b/d²` (or `0` when either charge is `0`), the net force
is decomposed along `(dx, dy)/d`, scaled by `FORCE_SCALE`, and applied
equal-and-opposite through `apply_force`. -/
def pairForceStep (a b : Atom) (d : ℚ) : Atom × Atom :=
  let dx := b.x - a.x
  let dy := b.y - a.y
  if d = 0 ∨ FORCE_THRESHOLD < d then (a, b)
  else
    let Fg := GRAVITY * a.mass * b.mass / d ^ 2
    let Fe := if a.charge = 0 ∨ b.charge = 0 then (0 : ℚ)
      else COULOMB * a.charge * b.charge / d ^ 2
    let Fx := (Fg - Fe) * dx / d * FORCE_SCALE
    let Fy := (Fg - Fe) * dy / d * FORCE_SCALE
    (a.apply_force Fx Fy, b.apply_force (-Fx) (-Fy))

/-- `combine_atoms` (lines 1053–1078): offspring mass is the sum, charge
and size the halved sums, color the componentwise floor-halved sum
(Python `//`, which on the nonnegative color components is ℕ division),
velocity the halved sums, position and species the first parent's; the
freshly constructed atom's default `health = 100` is then overwritten with
the minimum of the parents' healths. -/
def combine_atoms (atom1 atom2 : Atom) : Atom :=
  let new_mass := atom1.mass + atom2.mass
  let new_charge := (atom1.charge + atom2.charge) / 2
  let new_size := (atom1.size + atom2.size) / 2
  let new_color := ((atom1.color.1 + atom2.color.1) / 2,
    (atom1.color.2.1 + atom2.color.2.1) / 2,
    (atom1.color.2.2 + atom2.color.2.2) / 2)
  let new_health := min atom1.health atom2.health
  let new_atom := Atom.init atom1.x atom1.y ((atom1.vx + atom2.vx) / 2)
    ((atom1.vy + atom2.vy) / 2) new_mass new_charge new_size new_color
    atom1.species
  { new_atom with health := new_health }

/-- `Atom.mate_with` (lines 580–606): build the offspring with
`combine_atoms` and append it to the population (`combine_atoms` always
returns an atom and any object is truthy, so the guarded append always
fires), then set both participants' cooldowns to `60`.  Returns the
updated self, the updated mate and the updated population; in the source
the mate is an element of the population list, mutated in place. -/
def Atom.mate_with (self mate : Atom) (atoms : List Atom) :
    Atom × Atom × List Atom :=
  let new_atom := combine_atoms self mate
  ({ self with reproduction_cooldown := 60 },
   { mate with reproduction_cooldown := 60 },
   atoms ++ [new_atom])

/-- `Atom.find_mate` (lines 463–487): first atom in order that is a
different instance, has health `> 70`, has cooldown `0` and shares the
caller's species; `None` when there is no match.  (Python's `other !=
self` is identity inequality on objects without `__eq__`; value inequality
is its shallow counterpart.) -/
def Atom.find_mate (self : Atom) : List Atom → Option Atom
  | [] => none
  | other :: rest =>
    if other ≠ self ∧ 70 < other.health ∧
        other.reproduction_cooldown = 0 ∧ other.species = self.species then
      some other
    else self.find_mate rest

/-- `Atom.reproduce` (lines 184–208): when the cooldown is `0` and
`find_mate` succeeds, run `mate_with` and set both participants' cooldowns
to `REPRODUCTION_COOLDOWN`.  Returns the updated self, the updated mate
when mating happened, and the population. -/
def Atom.reproduce (self : Atom) (atoms : List Atom) :
    Atom × Option Atom × List Atom :=
  if self.reproduction_cooldown = 0 then
    match self.find_mate atoms with
    | some mate =>
      let r := self.mate_with mate atoms
      ({ r.1 with reproduction_cooldown := REPRODUCTION_COOLDOWN },
       some { r.2.1 with reproduction_cooldown := REPRODUCTION_COOLDOWN },
       r.2.2)
    | none => (self, none, atoms)
  else (self, none, atoms)

/-- The cooldown decrement at the top of `Atom.decide_behavior`
(lines 633–635): subtract `1` only while the cooldown is positive. -/
def decayCooldown (c : ℚ) : ℚ :=
  if 0 < c then c - 1 else c

/-- `create_atom` (lines 788–849), with the four `random` draws passed as
the parameters `rx ry rvx rvy`: red atoms get mass `1` and charge `1`,
blue atoms mass `1` and charge `-1`, food atoms velocity `0`, mass `1/10`
and charge `0`; any other `atom_type` yields `none` (the Python function
falls through and returns `None`).  The colors are `ATOM_COLORS[1]`
(yellow), `ATOM_COLORS[3]` (green) and `FOOD_COLORS[1]` (white). -/
def create_atom (atom_type : String) (rx ry rvx rvy : ℚ) : Option Atom :=
  if atom_type = "red" then
    some (Atom.init rx ry rvx rvy 1 1 ATOM_SIZE (255, 255, 0) atom_type)
  else if atom_type = "blue" then
    some (Atom.init rx ry rvx rvy 1 (-1) ATOM_SIZE (0, 255, 0) atom_type)
  else if atom_type = "food" then
    some (Atom.init rx ry 0 0 (1 / 10) 0 FOOD_SIZE (255, 255, 255) atom_type)
  else none

/-- C1 counterexample: the Python constructor accepts `mass = 0` and
produces an atom — construction with non-positive mass is not rejected, so
the claim that it fails is false at this input. -/
theorem C1_counterexample :
    (Atom.init 0 0 0 0 0 0 1 (0, 0, 0) "red").mass = 0 := rfl

/-- C1 (amended): `Atom.__init__` performs no mass validation — it
succeeds for any mass, including mass ≤ 0.  Nevertheless every atom the
program's factory `create_atom` yields has positive mass (1 or 1/10), and
`combine_atoms` yields positive mass from positive-mass parents, so every
entity the running program ever places in the population has mass > 0. -/
theorem C1_theorem :
    (∀ t rx ry rvx rvy a, create_atom t rx ry rvx rvy = some a → 0 < a.mass) ∧
    (∀ a b : Atom, 0 < a.mass → 0 < b.mass → 0 < (combine_atoms a b).mass) := by
  constructor
  · intro t rx ry rvx rvy a h
    unfold create_atom at h
    split_ifs at h
    · cases h; norm_num [Atom.init]
    · cases h; norm_num [Atom.init]
    · cases h; norm_num [Atom.init]
  · intro a b ha hb
    simpa [combine_atoms, Atom.init] using add_pos ha hb

/-- C1 witness: the food factory yields an atom of positive mass, and
combining two unit-mass atoms yields positive mass. -/
theorem C1_witness :
    0 < (Atom.init 1 1 0 0 1 1 5 (255, 255, 0) "red").mass ∧
    0 < (combine_atoms (Atom.init 1 1 0 0 1 1 5 (255, 255, 0) "red")
      (Atom.init 2 2 0 0 1 1 5 (255, 255, 0) "red")).mass :=
  ⟨by norm_num [Atom.init],
   C1_theorem.2 _ _ (by norm_num [Atom.init]) (by norm_num [Atom.init])⟩

/-- The entity refuting C2: at exactly `x = 0` with outward velocity
`vx = -1`. -/
def boundaryAtom : Atom :=
  Atom.init 0 600 (-1) 0 1 1 ATOM_SIZE (255, 255, 0) "red"

/-- C2 counterexample: an entity at exactly `x = 0` with `vx = -1`
pointing outward keeps `vx = -1` after `check_bounds` — the velocity is
not inverted, because the source tests `x < 0 or x > WINDOW_SIZE`
strictly, which is false at the boundary itself. -/
theorem C2_counterexample :
    boundaryAtom.x = 0 ∧ boundaryAtom.vx < 0 ∧
    boundaryAtom.check_bounds.vx = boundaryAtom.vx := by
  refine ⟨rfl, by norm_num [boundaryAtom, Atom.init], ?_⟩
  norm_num [boundaryAtom, Atom.init, Atom.check_bounds, WINDOW_SIZE]

/-- C2 (amended): `check_bounds` inverts a velocity component exactly when
the corresponding position component is strictly outside
`[0, WINDOW_SIZE]`; at exactly 0 or WINDOW_SIZE the velocity component is
left unchanged; in all cases both position components are clamped into
`[0, WINDOW_SIZE]`. -/
theorem C2_theorem (a : Atom) :
    (a.x < 0 ∨ WINDOW_SIZE < a.x → a.check_bounds.vx = -a.vx) ∧
    (a.x = 0 ∨ a.x = WINDOW_SIZE → a.check_bounds.vx = a.vx) ∧
    (a.y < 0 ∨ WINDOW_SIZE < a.y → a.check_bounds.vy = -a.vy) ∧
    (a.y = 0 ∨ a.y = WINDOW_SIZE → a.check_bounds.vy = a.vy) ∧
    0 ≤ a.check_bounds.x ∧ a.check_bounds.x ≤ WINDOW_SIZE ∧
    0 ≤ a.check_bounds.y ∧ a.check_bounds.y ≤ WINDOW_SIZE := by
  refine ⟨fun h => ?_, fun h => ?_, fun h => ?_, fun h => ?_, ?_, ?_, ?_, ?_⟩
  · simp [Atom.check_bounds, if_pos h]
  · have hc : ¬(a.x < 0 ∨ WINDOW_SIZE < a.x) := by
      rcases h with h | h <;> rw [h] <;> norm_num [WINDOW_SIZE]
    simp [Atom.check_bounds, hc]
  · simp [Atom.check_bounds, if_pos h]
  · have hc : ¬(a.y < 0 ∨ WINDOW_SIZE < a.y) := by
      rcases h with h | h <;> rw [h] <;> norm_num [WINDOW_SIZE]
    simp [Atom.check_bounds, hc]
  · exact le_max_left 0 _
  · exact max_le (by norm_num [WINDOW_SIZE]) (min_le_right _ _)
  · exact le_max_left 0 _
  · exact max_le (by norm_num [WINDOW_SIZE]) (min_le_right _ _)

/-- The entity used as the C2 witness: strictly outside the left bound. -/
def outsideAtom : Atom :=
  Atom.init (-3) 600 (-1) 0 1 1 ATOM_SIZE (255, 255, 0) "red"

/-- C2 witness: at `x = -3 < 0` the bounds check inverts `vx`. -/
theorem C2_witness : outsideAtom.check_bounds.vx = -outsideAtom.vx :=
  (C2_theorem outsideAtom).1 (Or.inl (by norm_num [outsideAtom, Atom.init]))

/-- C4: the offspring built by `combine_atoms` has mass the sum of the
parents' masses, charge/size/velocity the averages, color the
componentwise (integer) average, health the minimum, position and species
the first parent's; and `mate_with` appends exactly this offspring to the
population. -/
theorem C4_theorem (a b : Atom) (atoms : List Atom) :
    (combine_atoms a b).mass = a.mass + b.mass ∧
    (combine_atoms a b).charge = (a.charge + b.charge) / 2 ∧
    (combine_atoms a b).size = (a.size + b.size) / 2 ∧
    (combine_atoms a b).color = ((a.color.1 + b.color.1) / 2,
      (a.color.2.1 + b.color.2.1) / 2, (a.color.2.2 + b.color.2.2) / 2) ∧
    (combine_atoms a b).vx = (a.vx + b.vx) / 2 ∧
    (combine_atoms a b).vy = (a.vy + b.vy) / 2 ∧
    (combine_atoms a b).health = min a.health b.health ∧
    (combine_atoms a b).x = a.x ∧ (combine_atoms a b).y = a.y ∧
    (combine_atoms a b).species = a.species ∧
    (a.mate_with b atoms).2.2 = atoms ++ [combine_atoms a b] :=
  ⟨rfl, rfl, rfl, rfl, rfl, rfl, rfl, rfl, rfl, rfl, rfl⟩

/-- C5: with positive masses (the program invariant — every denominator in
the impulse computation is then nonzero, so no exception can arise),
`resolve_collision` returns both atoms unchanged — positions, velocities
and force accumulators included — whenever the two centers coincide
(squared distance 0) or the relative velocity projected on the
center-to-center normal is ≥ 0, i.e. `(va − vb)⬝(b − a) ≥ 0`: at a
strictly positive projection the source returns early, and at projection
exactly 0 the impulse it applies is exactly 0. -/
theorem C5_theorem (a b : Atom) (ha : 0 < a.mass) (hb : 0 < b.mass)
    (h : dist2 b.x b.y a.x a.y = 0 ∨
      0 ≤ (a.vx - b.vx) * (b.x - a.x) + (a.vy - b.vy) * (b.y - a.y)) :
    a.resolve_collision b = (a, b) := by
  simp only [Atom.resolve_collision]
  rcases h with h | h
  · simp only [dist2] at h
    rw [if_pos h]
  · by_cases hd : (b.x - a.x) ^ 2 + (b.y - a.y) ^ 2 = 0
    · rw [if_pos hd]
    · rw [if_neg hd]
      rcases eq_or_lt_of_le h with heq | hlt
      · rw [if_neg (by rw [← heq]; exact lt_irrefl 0)]
        rw [← heq]
        norm_num
      · rw [if_pos hlt]

/-- Two unit-mass atoms 10 apart whose relative velocity has nonnegative
projection on the center-to-center normal. -/
def sepA : Atom := Atom.init 0 0 1 0 1 1 ATOM_SIZE (255, 255, 0) "red"

/-- The partner of `sepA`, at distance 10, at rest. -/
def sepB : Atom := Atom.init 10 0 0 0 1 1 ATOM_SIZE (255, 255, 0) "red"

/-- C5 witness: `resolve_collision` leaves the concrete pair unchanged. -/
theorem C5_witness : sepA.resolve_collision sepB = (sepA, sepB) :=
  C5_theorem sepA sepB (by norm_num [sepA, Atom.init])
    (by norm_num [sepB, Atom.init])
    (Or.inr (by norm_num [sepA, sepB, Atom.init]))

/-- C6: for a pair with distinct centers whose relative velocity has
negative projection on the normal (the branch in which the source applies
its impulse), the two velocity impulses are equal and opposite — each side
scaled by the other's mass and by `COLLISION_DAMPING` — so the total
momentum `m₁·v₁ + m₂·v₂` is conserved exactly, in both components and
hence along the collision normal; the impulse on `a` is parallel to the
normal, and positions are untouched. -/
theorem C6_theorem (a b : Atom) (ha : 0 < a.mass) (hb : 0 < b.mass)
    (hd : dist2 b.x b.y a.x a.y ≠ 0)
    (happ : (a.vx - b.vx) * (b.x - a.x) + (a.vy - b.vy) * (b.y - a.y) < 0) :
    a.mass * ((a.resolve_collision b).1.vx - a.vx)
      = -(b.mass * ((a.resolve_collision b).2.vx - b.vx)) ∧
    a.mass * ((a.resolve_collision b).1.vy - a.vy)
      = -(b.mass * ((a.resolve_collision b).2.vy - b.vy)) ∧
    a.mass * (a.resolve_collision b).1.vx + b.mass * (a.resolve_collision b).2.vx
      = a.mass * a.vx + b.mass * b.vx ∧
    a.mass * (a.resolve_collision b).1.vy + b.mass * (a.resolve_collision b).2.vy
      = a.mass * a.vy + b.mass * b.vy ∧
    ((a.resolve_collision b).1.vx - a.vx) * (b.y - a.y)
      = ((a.resolve_collision b).1.vy - a.vy) * (b.x - a.x) ∧
    (a.resolve_collision b).1.x = a.x ∧ (a.resolve_collision b).1.y = a.y ∧
    (a.resolve_collision b).2.x = b.x ∧ (a.resolve_collision b).2.y = b.y := by
  have hd' : ¬((b.x - a.x) ^ 2 + (b.y - a.y) ^ 2 = 0) := by
    simpa [dist2] using hd
  have hlt : ¬(0 < (a.vx - b.vx) * (b.x - a.x) + (a.vy - b.vy) * (b.y - a.y)) :=
    not_lt.mpr happ.le
  refine ⟨?_, ?_, ?_, ?_, ?_, ?_, ?_, ?_, ?_⟩ <;>
  · simp only [Atom.resolve_collision]
    rw [if_neg hd', if_neg hlt]
    try dsimp only
    try ring

/-- A unit-mass atom moving away from its partner along the negative
projection branch of the collision resolver. -/
def appA : Atom := Atom.init 0 0 (-1) 0 1 1 ATOM_SIZE (255, 255, 0) "red"

/-- The partner of `appA`, at distance 10, at rest. -/
def appB : Atom := Atom.init 10 0 0 0 1 1 ATOM_SIZE (255, 255, 0) "red"

/-- C6 witness: momentum along x is conserved on the concrete pair. -/
theorem C6_witness :
    appA.mass * (appA.resolve_collision appB).1.vx
      + appB.mass * (appA.resolve_collision appB).2.vx
      = appA.mass * appA.vx + appB.mass * appB.vx :=
  (C6_theorem appA appB (by norm_num [appA, Atom.init])
    (by norm_num [appB, Atom.init])
    (by norm_num [appA, appB, Atom.init, dist2])
    (by norm_num [appA, appB, Atom.init])).2.2.1

/-- C7: for a pair at distance `d` (the parameter standing for
`hypot dx dy`, pinned by `0 ≤ d` and `d² = dx² + dy²`): when `d = 0` or
`d` exceeds `FORCE_THRESHOLD` the pair contributes nothing; otherwise the
contributions to the two force accumulators are equal and opposite, lie
along the separation axis, have squared magnitude
`((G·mₐ·m_b/d² − K·qₐ·q_b/d²)·FORCE_SCALE)²` — with the electrostatic
term 0 when either charge is 0 — and each atom's velocity moves by its
force contribution divided by its own mass. -/
theorem C7_theorem (a b : Atom) (d : ℚ) (ha : 0 < a.mass) (hb : 0 < b.mass)
    (hd0 : 0 ≤ d) (hd : d ^ 2 = (b.x - a.x) ^ 2 + (b.y - a.y) ^ 2) :
    (d = 0 ∨ FORCE_THRESHOLD < d → pairForceStep a b d = (a, b)) ∧
    (¬(d = 0 ∨ FORCE_THRESHOLD < d) →
      ((pairForceStep a b d).1.fx - a.fx) = -((pairForceStep a b d).2.fx - b.fx) ∧
      ((pairForceStep a b d).1.fy - a.fy) = -((pairForceStep a b d).2.fy - b.fy) ∧
      ((pairForceStep a b d).1.fx - a.fx) ^ 2 + ((pairForceStep a b d).1.fy - a.fy) ^ 2
        = ((GRAVITY * a.mass * b.mass / d ^ 2 -
            (if a.charge = 0 ∨ b.charge = 0 then 0
             else COULOMB * a.charge * b.charge / d ^ 2)) * FORCE_SCALE) ^ 2 ∧
      ((pairForceStep a b d).1.fx - a.fx) * (b.y - a.y)
        = ((pairForceStep a b d).1.fy - a.fy) * (b.x - a.x) ∧
      (pairForceStep a b d).1.vx = a.vx + ((pairForceStep a b d).1.fx - a.fx) / a.mass ∧
      (pairForceStep a b d).1.vy = a.vy + ((pairForceStep a b d).1.fy - a.fy) / a.mass ∧
      (pairForceStep a b d).2.vx = b.vx + ((pairForceStep a b d).2.fx - b.fx) / b.mass ∧
      (pairForceStep a b d).2.vy = b.vy + ((pairForceStep a b d).2.fy - b.fy) / b.mass) := by
  constructor
  · intro h
    simp only [pairForceStep]
    rw [if_pos h]
  · intro h
    have hdne : d ≠ 0 := fun hdz => h (Or.inl hdz)
    have key : ∀ q : ℚ, (q * (b.x - a.x) / d * FORCE_SCALE) ^ 2
        + (q * (b.y - a.y) / d * FORCE_SCALE) ^ 2 = (q * FORCE_SCALE) ^ 2 := by
      intro q
      have h1 : (q * (b.x - a.x) / d * FORCE_SCALE) ^ 2
          + (q * (b.y - a.y) / d * FORCE_SCALE) ^ 2
          = (q * FORCE_SCALE) ^ 2 * (((b.x - a.x) ^ 2 + (b.y - a.y) ^ 2) / d ^ 2) := by
        field_simp
        ring
      rw [h1, ← hd, div_self (pow_ne_zero 2 hdne), mul_one]
    refine ⟨?_, ?_, ?_, ?_, ?_, ?_, ?_, ?_⟩ <;>
      simp only [pairForceStep, Atom.apply_force] <;> rw [if_neg h] <;> dsimp only
    · ring
    · ring
    · by_cases hq : a.charge = 0 ∨ b.charge = 0
      · rw [if_pos hq, add_sub_cancel_left, add_sub_cancel_left]
        exact key _
      · rw [if_neg hq, add_sub_cancel_left, add_sub_cancel_left]
        exact key _
    · ring
    · ring
    · ring
    · ring
    · ring

/-- A unit-mass positively charged atom at the origin. -/
def forceA : Atom := Atom.init 0 0 0 0 1 1 ATOM_SIZE (255, 255, 0) "red"

/-- A unit-mass negatively charged atom at `(3, 4)`, distance 5 from
`forceA`. -/
def forceB : Atom := Atom.init 3 4 0 0 1 (-1) ATOM_SIZE (0, 255, 0) "blue"

/-- C7 witness: at distance 5 the force contributions on the concrete pair
are equal and opposite in the x component. -/
theorem C7_witness :
    ((pairForceStep forceA forceB 5).1.fx - forceA.fx)
      = -((pairForceStep forceA forceB 5).2.fx - forceB.fx) :=
  ((C7_theorem forceA forceB 5 (by norm_num [forceA, Atom.init])
      (by norm_num [forceB, Atom.init]) (by norm_num)
      (by norm_num [forceA, forceB, Atom.init])).2
    (by norm_num [FORCE_THRESHOLD])).1

/-- The scan predicate of `eat` in propositional form. -/
theorem eatMatch_eq_false_iff (self a : Atom) :
    eatMatch self a = false ↔
      ¬(a.species = "food" ∧ self.check_collision a = true) := by
  simp [eatMatch, not_and]

/-- `eat` walks past a non-matching head unchanged. -/
theorem eat_cons_of_not_match (self atom : Atom) (rest : List Atom)
    (h : eatMatch self atom = false) :
    self.eat (atom :: rest) = ((self.eat rest).1, atom :: (self.eat rest).2) := by
  simp [Atom.eat, h]

/-- `eat` stops at a matching head: feed the caller, drop the head. -/
theorem eat_cons_of_match (self atom : Atom) (rest : List Atom)
    (h : eatMatch self atom = true) :
    self.eat (atom :: rest) =
      ({ self with hunger := min 100 (self.hunger + 20),
                   energy := min 100 (self.energy + 20) }, rest) := by
  simp [Atom.eat, h]

/-- When some list element matches, `eat` feeds the caller and removes
exactly one element. -/
theorem eat_finds_match (self : Atom) (atoms : List Atom)
    (h : ∃ a ∈ atoms, eatMatch self a = true) :
    (self.eat atoms).1 =
      { self with hunger := min 100 (self.hunger + 20),
                  energy := min 100 (self.energy + 20) } ∧
    (self.eat atoms).2.length + 1 = atoms.length := by
  induction atoms with
  | nil => simp at h
  | cons a rest ih =>
    by_cases ha : eatMatch self a = true
    · rw [eat_cons_of_match self a rest ha]
      simp
    · have ha' : eatMatch self a = false := by simpa using ha
      rw [eat_cons_of_not_match self a rest ha']
      obtain ⟨f, hf, hm⟩ := h
      rcases List.mem_cons.mp hf with rfl | hf
      · exact absurd hm ha
      · obtain ⟨ih1, ih2⟩ := ih ⟨f, hf, hm⟩
        exact ⟨ih1, by simpa using ih2⟩

/-- C3: scanning a population with no colliding food-tagged entity, `eat`
changes nothing; when the population is `pre ++ f :: post` with `f` the
first colliding food-tagged entity (nothing in `pre` matches), `eat`
raises the caller's hunger and energy to `min 100 (· + 20)`, removes
exactly `f`, leaves `pre` and `post` — and hence every other entity —
untouched, and never scans past `f`. -/
theorem C3_theorem (self : Atom) :
    (∀ atoms : List Atom,
      (∀ a ∈ atoms, ¬(a.species = "food" ∧ self.check_collision a = true)) →
      self.eat atoms = (self, atoms)) ∧
    (∀ (pre post : List Atom) (f : Atom),
      (∀ a ∈ pre, ¬(a.species = "food" ∧ self.check_collision a = true)) →
      f.species = "food" → self.check_collision f = true →
      self.eat (pre ++ f :: post) =
        ({ self with hunger := min 100 (self.hunger + 20),
                     energy := min 100 (self.energy + 20) }, pre ++ post)) := by
  constructor
  · intro atoms h
    induction atoms with
    | nil => rfl
    | cons a rest ih =>
      rw [eat_cons_of_not_match self a rest
        ((eatMatch_eq_false_iff self a).mpr (h a (by simp)))]
      rw [ih (fun x hx => h x (by simp [hx]))]
  · intro pre post f hpre hf hc
    induction pre with
    | nil =>
      simpa using eat_cons_of_match self f post
        (by simp [eatMatch, hf, hc])
    | cons a rest ih =>
      rw [List.cons_append, eat_cons_of_not_match self a _
        ((eatMatch_eq_false_iff self a).mpr (hpre a (by simp)))]
      rw [ih (fun x hx => hpre x (by simp [hx]))]
      rfl

/-- The caller used in the C3 witness. -/
def eaterAtom : Atom := Atom.init 0 0 0 0 1 1 ATOM_SIZE (255, 255, 0) "red"

/-- A food atom overlapping `eaterAtom`. -/
def eatenFood : Atom :=
  Atom.init 1 0 0 0 (1 / 10) 0 FOOD_SIZE (255, 255, 255) "food"

/-- C3 witness: eating the singleton population holding one colliding food
atom feeds the caller and empties the population. -/
theorem C3_witness :
    eaterAtom.eat [eatenFood] =
      ({ eaterAtom with hunger := min 100 (eaterAtom.hunger + 20),
                        energy := min 100 (eaterAtom.energy + 20) }, []) :=
  (C3_theorem eaterAtom).2 [] [] eatenFood (by simp) rfl
    (by simp only [Atom.check_collision, decide_eq_true_eq, dist2,
      eaterAtom, eatenFood, Atom.init, ATOM_SIZE, FOOD_SIZE]
        ; norm_num)

/-- C9: the `eat` scan does not exclude the caller, and an entity of
positive size collides with itself (self-distance 0 is below twice its
size); hence a food-tagged caller of positive size scanning a population
containing itself always finds some food-tagged match — possibly itself —
so one entity is removed and the caller's hunger and energy become
`min 100 (· + 20)`, a (weak) increase whenever they respect the cap. -/
theorem C9_theorem (self : Atom) (atoms : List Atom)
    (hfood : self.species = "food") (hsize : 0 < self.size)
    (hmem : self ∈ atoms) :
    self.check_collision self = true ∧
    (self.eat atoms).1.hunger = min 100 (self.hunger + 20) ∧
    (self.eat atoms).1.energy = min 100 (self.energy + 20) ∧
    (self.eat atoms).2.length + 1 = atoms.length ∧
    (self.hunger ≤ 100 → self.hunger ≤ (self.eat atoms).1.hunger) ∧
    (self.energy ≤ 100 → self.energy ≤ (self.eat atoms).1.energy) := by
  have hcol : self.check_collision self = true := by
    simp only [Atom.check_collision, decide_eq_true_eq, dist2]
    refine ⟨by linarith, ?_⟩
    have h2 : (0:ℚ) < (self.size + self.size) ^ 2 := by positivity
    simpa using h2
  obtain ⟨h1, h2⟩ := eat_finds_match self atoms
    ⟨self, hmem, by simp [eatMatch, hfood, hcol]⟩
  refine ⟨hcol, by rw [h1], by rw [h1], h2, ?_, ?_⟩
  · intro hle
    rw [h1]
    exact le_min hle (by linarith)
  · intro hle
    rw [h1]
    exact le_min hle (by linarith)

/-- The self-eating food atom of the C9 witness. -/
def selfFood : Atom :=
  Atom.init 7 7 0 0 (1 / 10) 0 FOOD_SIZE (255, 255, 255) "food"

/-- C9 witness: a food atom eating over the population holding only itself
removes one entity. -/
theorem C9_witness :
    (selfFood.eat [selfFood]).2.length + 1 = [selfFood].length :=
  (C9_theorem selfFood [selfFood] rfl
    (by norm_num [selfFood, Atom.init, FOOD_SIZE]) (by simp)).2.2.2.1

/-- The cooldown values the program ever stores are the nonnegative
integers (0 initially, 60 on reset, unit decrements stopping at 0). -/
def cooldownIsNat (c : ℚ) : Prop := ∃ n : ℕ, c = n

/-- C8: the reproduction cooldown starts at 0, is reset to the constant
`REPRODUCTION_COOLDOWN = 60` for both participants of a successful mating
(both by `mate_with` and again by `reproduce`), and otherwise changes only
through the per-tick `decayCooldown`, which subtracts 1 exactly when the
cooldown is positive; on the nonnegative-integer values the program
stores, the decrement preserves nonnegative-integrality, so the cooldown
stays ≥ 0 forever. -/
theorem C8_theorem :
    (∀ x y vx vy m q s col sp,
      (Atom.init x y vx vy m q s col sp).reproduction_cooldown = 0) ∧
    REPRODUCTION_COOLDOWN = 60 ∧ cooldownIsNat REPRODUCTION_COOLDOWN ∧
    (∀ c : ℚ, cooldownIsNat c →
      cooldownIsNat (decayCooldown c) ∧ 0 ≤ decayCooldown c ∧
      (0 < c → decayCooldown c = c - 1) ∧ (¬0 < c → decayCooldown c = c)) ∧
    (∀ self mate atoms,
      (Atom.mate_with self mate atoms).1.reproduction_cooldown = 60 ∧
      (Atom.mate_with self mate atoms).2.1.reproduction_cooldown = 60) ∧
    (∀ self s2 m2 : Atom, ∀ atoms pop : List Atom,
      Atom.reproduce self atoms = (s2, some m2, pop) →
      s2.reproduction_cooldown = REPRODUCTION_COOLDOWN ∧
      m2.reproduction_cooldown = REPRODUCTION_COOLDOWN) := by
  refine ⟨fun _ _ _ _ _ _ _ _ _ => rfl, by norm_num [REPRODUCTION_COOLDOWN],
    ⟨60, by norm_num [REPRODUCTION_COOLDOWN]⟩, ?_, ?_, ?_⟩
  · intro c hc
    obtain ⟨n, rfl⟩ := hc
    by_cases h : (0:ℚ) < n
    · have hn : 1 ≤ n := by exact_mod_cast h
      refine ⟨⟨n - 1, ?_⟩, ?_, fun _ => ?_, fun hh => absurd h hh⟩
      · rw [decayCooldown, if_pos h, Nat.cast_sub hn, Nat.cast_one]
      · rw [decayCooldown, if_pos h]
        have : (1:ℚ) ≤ n := by exact_mod_cast hn
        linarith
      · rw [decayCooldown, if_pos h]
    · refine ⟨⟨n, ?_⟩, ?_, fun hh => absurd hh h, fun _ => ?_⟩
      · rw [decayCooldown, if_neg h]
      · rw [decayCooldown, if_neg h]
        positivity
      · rw [decayCooldown, if_neg h]
  · intro self mate atoms
    exact ⟨rfl, rfl⟩
  · intro self s2 m2 atoms pop h
    rw [Atom.reproduce] at h
    split_ifs at h with hcd
    · cases hfm : self.find_mate atoms with
      | none =>
        rw [hfm] at h
        simp at h
      | some mate =>
        rw [hfm] at h
        simp only [Prod.mk.injEq, Option.some.injEq] at h
        obtain ⟨hs, hm, -⟩ := h
        exact ⟨by rw [← hs], by rw [← hm]⟩
    · simp at h

/-- C8 witness: the decrement applied to the stored value 3. -/
theorem C8_witness :
    cooldownIsNat (decayCooldown 3) ∧ 0 ≤ decayCooldown 3 ∧
    ((0:ℚ) < 3 → decayCooldown 3 = 3 - 1) ∧
    (¬(0:ℚ) < 3 → decayCooldown 3 = 3) :=
  C8_theorem.2.2.2.1 3 ⟨3, by norm_num⟩

/-- C10: after `update_position` both velocity components lie in
`[-MAX_VELOCITY, MAX_VELOCITY]`, the energy equals the kinetic energy
`1/2·mass·(vx²+vy²)` computed from the clamped velocity, the mass is
untouched, and the trail — empty at construction and touched only here —
never grows beyond `TRAIL_LENGTH` entries. -/
theorem C10_theorem (a : Atom) (speed : ℚ) :
    -MAX_VELOCITY ≤ (a.update_position speed).vx ∧
    (a.update_position speed).vx ≤ MAX_VELOCITY ∧
    -MAX_VELOCITY ≤ (a.update_position speed).vy ∧
    (a.update_position speed).vy ≤ MAX_VELOCITY ∧
    (a.update_position speed).energy
      = 1 / 2 * (a.update_position speed).mass *
        ((a.update_position speed).vx ^ 2 + (a.update_position speed).vy ^ 2) ∧
    (a.update_position speed).mass = a.mass ∧
    (a.trail.length ≤ TRAIL_LENGTH →
      (a.update_position speed).trail.length ≤ TRAIL_LENGTH) ∧
    (∀ x y vx vy m q s col sp,
      (Atom.init x y vx vy m q s col sp).trail.length ≤ TRAIL_LENGTH) := by
  refine ⟨?_, ?_, ?_, ?_, ?_, ?_, ?_, ?_⟩
  · exact le_max_left _ _
  · exact max_le (by norm_num [MAX_VELOCITY]) (min_le_right _ _)
  · exact le_max_left _ _
  · exact max_le (by norm_num [MAX_VELOCITY]) (min_le_right _ _)
  · rfl
  · rfl
  · intro hlen
    simp only [Atom.update_position, Atom.check_bounds]
    by_cases h10 : TRAIL_LENGTH < (a.trail ++ [(max 0 (min (a.x + a.vx * speed) WINDOW_SIZE),
        max 0 (min (a.y + a.vy * speed) WINDOW_SIZE))]).length
    · rw [if_pos h10]
      simp only [List.length_drop, List.length_append, List.length_cons, List.length_nil]
      omega
    · rw [if_neg h10]
      simp only [List.length_append, List.length_cons, List.length_nil] at h10 ⊢
      omega
  · intro x y vx vy m q s col sp
    simp [Atom.init, TRAIL_LENGTH]

/-- C10 witness: a freshly constructed atom with an empty trail keeps its
trail within capacity after one position update. -/
theorem C10_witness :
    ((Atom.init 5 5 1 1 1 1 ATOM_SIZE (255, 255, 0) "red").update_position 1).trail.length
      ≤ TRAIL_LENGTH :=
  (C10_theorem (Atom.init 5 5 1 1 1 1 ATOM_SIZE (255, 255, 0) "red") 1).2.2.2.2.2.2.1
    (by simp [Atom.init, TRAIL_LENGTH])

end LifeSim
